import Mathlib

/-!
Shallow embedding of the HMM build pipeline in src/src/p7_builder.c.

Pure fragments of the C code (strategy dispatch, configuration
defaults, the faux trace synthesis loop, the target relative entropy
formula, the rescaling arithmetic) are translated directly.  External
collaborators that the file only calls (the model makers, the three
weighting algorithms, single linkage clustering, entropy weighting,
parameter estimation, the calibration simulation, the random number
generator internals) are represented as explicit oracle parameters, or
are modelled from the specification where noted.  Machine doubles are
modelled as rationals, except for the logarithmic target relative
entropy computation, which is modelled over the reals.  Error message
strings written into bld->errbuf are modelled as an enumerated message
type Msg.
-/

/-- Easel and HMMER status codes used by p7_builder.c. -/
inductive Status where
  | eslOK
  | eslEMEM
  | eslEINVAL
  | eslENOTFOUND
  | eslENORESULT
  | eslEFORMAT
  | eslFAIL
  deriving DecidableEq

/-- Model construction strategies (p7_ARCH_FAST, p7_ARCH_HAND). -/
inductive ArchStrategy where
  | fast
  | hand
  deriving DecidableEq

/-- Relative weighting strategies (p7_WGT_NONE, p7_WGT_GIVEN, p7_WGT_PB,
p7_WGT_GSC, p7_WGT_BLOSUM). -/
inductive WgtStrategy where
  | wnone
  | wgiven
  | wpb
  | wgsc
  | wblosum
  deriving DecidableEq

/-- Effective sequence number strategies (p7_EFFN_NONE, p7_EFFN_SET,
p7_EFFN_CLUST, p7_EFFN_ENTROPY). -/
inductive EffnStrategy where
  | effnNone
  | effnSet
  | effnClust
  | effnEntropy
  deriving DecidableEq

/-- Alphabet identity (esl_alphabet type codes used by p7_builder.c). -/
inductive AlphabetType where
  | amino
  | dna
  | rna
  | other
  deriving DecidableEq

/-- Which prior p7_builder_Create selects, per the switch on abc->type. -/
inductive PriorKind where
  | aminoPrior
  | nucleicPrior
  | laplacePrior
  deriving DecidableEq

/-- The human readable messages p7_builder.c writes into bld->errbuf,
modelled as an enumeration (one constructor per distinct ESL_XFAIL
format string in the file). -/
inductive Msg where
  | empty
  | failedSetRelativeWeights
  | noConsensusColumnsFast
  | noConsensusColumnsHand
  | noReferenceLine
  | memAllocModelConstruction
  | internalErrorModelConstruction
  | memAllocFailed
  | clusteringFailed
  | entropyWeightFailed
  | parameterEstimationFailed
  | unableToNameHMM
  | failedToFindMatrixFile
  | failedToReadMatrixFile
  | matrixNotSymmetric
  | yuAltschulFailed
  | scoreSystemNotInitialized
  deriving DecidableEq

/-- Modelled from the spec and the comment at src/src/p7_builder.c:109:
the state of the ESL_RANDOMNESS source, reduced to the seed it was
initialized with and how much of its deterministic stream has been
consumed.  The generator internals live outside src/. -/
structure ESL_RANDOMNESS where
  seed : ℤ
  pos : ℕ
  deriving DecidableEq

/-- Modelled from the spec (section 4.1): esl_randomness_Create with a
nonzero seed initializes the deterministic stream from that seed; seed
0 is a sentinel meaning an arbitrary seed is chosen (modelled by the
explicit arbitrarySeed argument standing for the entropy the library
draws from the environment). -/
def esl_randomness_Create (seed : ℤ) (arbitrarySeed : ℤ) : ESL_RANDOMNESS :=
  { seed := if seed = 0 then arbitrarySeed else seed, pos := 0 }

/-- The derived conditional probability matrix bld->Q (an ESL_DMATRIX),
reduced to its entries. -/
structure ESL_DMATRIX where
  rows : List (List ℚ)
  deriving DecidableEq

/-- The P7_BUILDER configuration object, with the fields p7_builder.c
reads and writes.  The prior is reduced to which prior was selected;
S and Q are reduced to presence and contents of the Q matrix. -/
structure P7_BUILDER where
  arch_strategy : ArchStrategy
  wgt_strategy : WgtStrategy
  effn_strategy : EffnStrategy
  symfrac : ℚ
  pbswitch : ℤ
  wid : ℚ
  re_target : ℚ
  eX : ℚ
  eid : ℚ
  EvL : ℤ
  EvN : ℤ
  EfL : ℤ
  EfN : ℤ
  Eft : ℚ
  eset : ℚ
  r : ESL_RANDOMNESS
  do_reseeding : Bool
  prior : PriorKind
  abcType : AlphabetType
  Q : Option ESL_DMATRIX
  popen : ℚ
  pextend : ℚ
  errbuf : Msg
  deriving DecidableEq

/-- The resolved values of the 24 standard build options consulted by
p7_builder_Create when an ESL_GETOPTS object is supplied.  Boolean
fields model esl_opt_GetBoolean of the corresponding flag; esetOn and
ereOn model esl_opt_IsOn of the optional valued options. -/
structure BuildOpts where
  fast : Bool
  hand : Bool
  wgsc : Bool
  wblosum : Bool
  wpb : Bool
  wnone : Bool
  wgiven : Bool
  eent : Bool
  eclust : Bool
  enone : Bool
  esetOn : Bool
  esetVal : ℚ
  seed : ℤ
  symfrac : ℚ
  pbswitch : ℤ
  wid : ℚ
  ereOn : Bool
  ereVal : ℚ
  eX : ℚ
  eid : ℚ
  EvL : ℤ
  EvN : ℤ
  EfL : ℤ
  EfN : ℤ
  Eft : ℚ
  deriving DecidableEq

/-- p7_builder_Create (src/src/p7_builder.c:55).  With go = none the
documented defaults are used; otherwise each strategy is resolved by
the if/else chains of lines 80 to 94.  The C code leaves a strategy
field unassigned when the caller supplied an option set with none of
the corresponding flags on (the documentation requires exactly one per
category); the model falls back to the documented default in that
unreachable case.  The eset field starts at the -1 sentinel (line 68)
and is overwritten only in the esl_opt_IsOn branch for the set
strategy (line 92).  arbitrarySeed models the arbitrary seed chosen by
esl_randomness_Create when seed is the 0 sentinel. -/
def p7_builder_Create (go : Option BuildOpts) (abcType : AlphabetType)
    (arbitrarySeed : ℤ) : P7_BUILDER :=
  let arch : ArchStrategy :=
    match go with
    | none => ArchStrategy.fast
    | some g =>
        if g.fast then ArchStrategy.fast
        else if g.hand then ArchStrategy.hand
        else ArchStrategy.fast
  let wgt : WgtStrategy :=
    match go with
    | none => WgtStrategy.wgsc
    | some g =>
        if g.wgsc then WgtStrategy.wgsc
        else if g.wblosum then WgtStrategy.wblosum
        else if g.wpb then WgtStrategy.wpb
        else if g.wnone then WgtStrategy.wnone
        else if g.wgiven then WgtStrategy.wgiven
        else WgtStrategy.wgsc
  let effn : EffnStrategy :=
    match go with
    | none => EffnStrategy.effnEntropy
    | some g =>
        if g.eent then EffnStrategy.effnEntropy
        else if g.eclust then EffnStrategy.effnClust
        else if g.enone then EffnStrategy.effnNone
        else if g.esetOn then EffnStrategy.effnSet
        else EffnStrategy.effnEntropy
  let esetv : ℚ :=
    match go with
    | none => -1
    | some g =>
        if g.eent then -1
        else if g.eclust then -1
        else if g.enone then -1
        else if g.esetOn then g.esetVal
        else -1
  let seed : ℤ :=
    match go with
    | none => 0
    | some g => g.seed
  { arch_strategy := arch
    wgt_strategy := wgt
    effn_strategy := effn
    symfrac := match go with | none => 1/2 | some g => g.symfrac
    pbswitch := match go with | none => 1000 | some g => g.pbswitch
    wid := match go with | none => 62/100 | some g => g.wid
    re_target := match go with
      | none => -1
      | some g => if g.ereOn then g.ereVal else -1
    eX := match go with | none => 6 | some g => g.eX
    eid := match go with | none => 62/100 | some g => g.eid
    EvL := match go with | none => 100 | some g => g.EvL
    EvN := match go with | none => 200 | some g => g.EvN
    EfL := match go with | none => 100 | some g => g.EfL
    EfN := match go with | none => 200 | some g => g.EfN
    Eft := match go with | none => 4/100 | some g => g.Eft
    eset := esetv
    r := esl_randomness_Create seed arbitrarySeed
    do_reseeding := if seed = 0 then false else true
    prior := match abcType with
      | AlphabetType.amino => PriorKind.aminoPrior
      | AlphabetType.dna => PriorKind.nucleicPrior
      | AlphabetType.rna => PriorKind.nucleicPrior
      | AlphabetType.other => PriorKind.laplacePrior
    abcType := abcType
    Q := none
    popen := 0
    pextend := 0
    errbuf := Msg.empty }

/-- The multiple sequence alignment, reduced to the fields
relative_weights and effective_seqnumber read: the sequence count and
the per sequence weight vector. -/
structure ESL_MSA where
  nseq : ℕ
  wgt : List ℚ
  deriving DecidableEq

/-- Which action the if/else chain of relative_weights
(src/src/p7_builder.c:414) selects. -/
inductive WgtAction where
  | setAllOnes
  | keepGiven
  | runPB
  | runGSC
  | runBLOSUM
  deriving DecidableEq

/-- The dispatch of relative_weights (src/src/p7_builder.c:414 to 419),
read off the if/else chain verbatim: wnone sets uniform weights,
wgiven keeps the existing weights, then the position based override
fires when pbswitch differs from -1 and nseq meets it, then the
nominally selected algorithm runs. -/
def relative_weights_action (bld : P7_BUILDER) (nseq : ℕ) : WgtAction :=
  if bld.wgt_strategy = WgtStrategy.wnone then WgtAction.setAllOnes
  else if bld.wgt_strategy = WgtStrategy.wgiven then WgtAction.keepGiven
  else if bld.pbswitch ≠ -1 ∧ (nseq : ℤ) ≥ bld.pbswitch then WgtAction.runPB
  else if bld.wgt_strategy = WgtStrategy.wpb then WgtAction.runPB
  else if bld.wgt_strategy = WgtStrategy.wgsc then WgtAction.runGSC
  else WgtAction.runBLOSUM

/-- relative_weights (src/src/p7_builder.c:409).  The three external
weighting algorithms (esl_msaweight_PB, esl_msaweight_GSC,
esl_msaweight_BLOSUM) are an oracle producing the new weight vector or
a failure status; a failure is wrapped by the ESL_XFAIL at line 421
with the "failed to set relative weights" message. -/
def relative_weights (bld : P7_BUILDER) (msa : ESL_MSA)
    (alg : WgtAction → ESL_MSA → Except Status (List ℚ)) :
    Except (Status × Msg) ESL_MSA :=
  match relative_weights_action bld msa.nseq with
  | WgtAction.setAllOnes => Except.ok { msa with wgt := List.replicate msa.nseq 1 }
  | WgtAction.keepGiven => Except.ok msa
  | act =>
      match alg act msa with
      | Except.ok w => Except.ok { msa with wgt := w }
      | Except.error e => Except.error (e, Msg.failedSetRelativeWeights)

/-- The P7_HMM under construction, reduced to the fields
p7_builder.c reads and writes in the effective number stage: the model
length M, the nominal sequence count hmm->nseq, the real valued
effective sequence count hmm->eff_nseq, and the emission and
transition counts, flattened into one list (p7_hmm_Scale multiplies
every one of them by the same factor). -/
structure P7_HMM where
  M : ℕ
  nseq : ℕ
  eff_nseq : ℚ
  counts : List ℚ
  deriving DecidableEq

/-- p7_hmm_Scale: multiply every count in the model by scale. -/
def p7_hmm_Scale (hmm : P7_HMM) (scale : ℚ) : P7_HMM :=
  { hmm with counts := hmm.counts.map (fun c => c * scale) }

/-- effective_seqnumber (src/src/p7_builder.c:477).  The strategy
dispatch picks the effective count: the nominal msa->nseq for the none
strategy (line 482), bld->eset for the set strategy (line 483), the
cluster count from esl_msacluster_SingleLinkage for the cluster
strategy (lines 484 to 493), and the solver output from
p7_EntropyWeight for the entropy strategy (lines 495 to 507); the two
external collaborators are oracle arguments.  Every successful branch
then falls through to the single p7_hmm_Scale call at line 509, which
rescales the counts by hmm->eff_nseq / hmm->nseq. -/
def effective_seqnumber (bld : P7_BUILDER) (msa : ESL_MSA) (hmm : P7_HMM)
    (singleLinkage : Except Status ℕ)
    (entropyWeight : Except Status ℚ) :
    Except (Status × Msg) P7_HMM :=
  let effRes : Except (Status × Msg) ℚ :=
    match bld.effn_strategy with
    | EffnStrategy.effnNone => Except.ok (msa.nseq : ℚ)
    | EffnStrategy.effnSet => Except.ok bld.eset
    | EffnStrategy.effnClust =>
        match singleLinkage with
        | Except.ok nclust => Except.ok (nclust : ℚ)
        | Except.error Status.eslEMEM =>
            Except.error (Status.eslEMEM, Msg.memAllocFailed)
        | Except.error e => Except.error (e, Msg.clusteringFailed)
    | EffnStrategy.effnEntropy =>
        match entropyWeight with
        | Except.ok eff => Except.ok eff
        | Except.error Status.eslEMEM =>
            Except.error (Status.eslEMEM, Msg.memAllocFailed)
        | Except.error e => Except.error (e, Msg.entropyWeightFailed)
  match effRes with
  | Except.error e => Except.error e
  | Except.ok eff =>
      let h := { hmm with eff_nseq := eff }
      Except.ok (p7_hmm_Scale h (h.eff_nseq / (h.nseq : ℚ)))

/-- default_target_relent (src/src/p7_builder.c:632).  M is the model
length in nodes; eX is bld->eX.  The C expression
6.*(eX + log((M*(M+1))/2)/log(2.))/(2*M+4) is translated with its
integer truncating division (M*(M+1))/2 kept as natural division, and
the alphabet dependent hard minimum (p7_ETARGET_AMINO and friends,
constants defined outside this source file) abstracted as the etfloor
argument; the switch at lines 639 to 644 is the max with that floor. -/
noncomputable def default_target_relent (eX : ℝ) (etfloor : ℝ) (M : ℕ) : ℝ :=
  let etarget : ℝ :=
    6 * (eX + Real.log (((M * (M + 1)) / 2 : ℕ) : ℝ) / Real.log 2) /
      ((2 * M + 4 : ℕ) : ℝ)
  max etfloor etarget

/-- smEntry S a b is entry (a,b) of a score matrix stored as rows. -/
def smEntry (S : List (List ℤ)) (a b : ℕ) : ℤ :=
  (S.getD a []).getD b 0

/-- esl_scorematrix_IsSymmetric: the score matrix equals its transpose. -/
def esl_scorematrix_IsSymmetric (S : List (List ℤ)) : Bool :=
  (List.range S.length).all fun a =>
    (List.range S.length).all fun b =>
      smEntry S a b == smEntry S b a

/-- Row a of Q is divided by fa[a], making Q->mx[a][b] the conditional
probability P(b given a) (src/src/p7_builder.c:211 to 213). -/
def conditionalize (Q : ESL_DMATRIX) (fa : List ℚ) : ESL_DMATRIX :=
  { rows := Q.rows.mapIdx (fun a row => row.map (fun q => q / fa.getD a 1)) }

/-- Observable outcome of p7_builder_SetScoreSystem: the returned
status, the message left in bld->errbuf, whether esl_sco_Probify was
ever invoked, and the conditional probability matrix stored in bld->Q
on success. -/
structure ScoreSystemResult where
  status : Status
  errbuf : Msg
  probifyCalled : Bool
  Q : Option ESL_DMATRIX
  deriving DecidableEq

/-- p7_builder_SetScoreSystem (src/src/p7_builder.c:177).  loadResult
stands for the matrix acquisition steps of lines 195 to 205 (allocate,
then either esl_scorematrix_SetBLOSUM62 or open and read mxfile),
yielding the loaded score matrix or a tagged failure with the message
the corresponding ESL_XFAIL wrote.  After a successful load the matrix
is checked for symmetry (line 206); only then is the external
esl_sco_Probify oracle consulted (line 208), whose success yields the
Q matrix and the fa frequencies used to conditionalize it. -/
def p7_builder_SetScoreSystem
    (loadResult : Except (Status × Msg) (List (List ℤ)))
    (probify : List (List ℤ) → Except Status (ESL_DMATRIX × List ℚ)) :
    ScoreSystemResult :=
  match loadResult with
  | Except.error (st, m) =>
      { status := st, errbuf := m, probifyCalled := false, Q := none }
  | Except.ok S =>
      if esl_scorematrix_IsSymmetric S then
        match probify S with
        | Except.error _ =>
            { status := Status.eslEINVAL, errbuf := Msg.yuAltschulFailed,
              probifyCalled := true, Q := none }
        | Except.ok (Q, fa) =>
            { status := Status.eslOK, errbuf := Msg.empty,
              probifyCalled := true, Q := some (conditionalize Q fa) }
      else
        { status := Status.eslEINVAL, errbuf := Msg.matrixNotSymmetric,
          probifyCalled := false, Q := none }

/-- State labels appearing in the faux trace built by p7_SingleBuilder
(p7T_B, p7T_M, p7T_E). -/
inductive TraceState where
  | B
  | M
  | E
  deriving DecidableEq

/-- A P7_TRACE: the appended (state, node index, sequence position)
triples, and the model length and sequence length fields. -/
structure P7_TRACE where
  steps : List (TraceState × ℕ × ℕ)
  M : ℕ
  L : ℕ
  deriving DecidableEq

/-- p7_trace_Create: an empty trace. -/
def p7_trace_Create : P7_TRACE :=
  { steps := [], M := 0, L := 0 }

/-- p7_trace_Append tr st k i: append one (state, node, position)
triple to the trace. -/
def p7_trace_Append (tr : P7_TRACE) (st : TraceState) (k i : ℕ) : P7_TRACE :=
  { tr with steps := tr.steps ++ [(st, k, i)] }

/-- The faux trace loop of p7_SingleBuilder
(src/src/p7_builder.c:374 to 382): create, append B, append one M
state per residue position k = 1..n, append E, then set tr->M and
tr->L to the query length n. -/
def singleBuilder_fauxTrace (n : ℕ) : P7_TRACE :=
  let tr := p7_trace_Create
  let tr := p7_trace_Append tr TraceState.B 0 0
  let tr := (List.range n).foldl
    (fun t k => p7_trace_Append t TraceState.M (k + 1) (k + 1)) tr
  let tr := p7_trace_Append tr TraceState.E 0 0
  { tr with M := n, L := n }

/-- Observable outcome of p7_SingleBuilder: status, errbuf message,
the optionally returned model and trace, and whether p7_Seqmodel was
ever invoked (whether any model construction work happened). -/
structure SingleBuilderResult where
  status : Status
  errbuf : Msg
  hmm : Option P7_HMM
  tr : Option P7_TRACE
  seqmodelCalled : Bool
  deriving DecidableEq

/-- p7_SingleBuilder (src/src/p7_builder.c:358) for a query of length
n.  The errbuf is cleared, then the guard at line 368 raises eslEINVAL
if bld->Q was never initialized.  p7_Seqmodel and the calibration are
external oracles; on their failure the ERROR path returns their status
with no model handed out.  On success the faux trace is synthesized
when wantTr, and the model is handed out only when wantHmm. -/
def p7_SingleBuilder (bld : P7_BUILDER) (n : ℕ) (wantHmm wantTr : Bool)
    (seqmodel : Except Status P7_HMM)
    (calibration : P7_HMM → Except Status P7_HMM) :
    SingleBuilderResult :=
  match bld.Q with
  | none =>
      { status := Status.eslEINVAL, errbuf := Msg.scoreSystemNotInitialized,
        hmm := none, tr := none, seqmodelCalled := false }
  | some _ =>
      match seqmodel with
      | Except.error e =>
          { status := e, errbuf := Msg.empty, hmm := none, tr := none,
            seqmodelCalled := true }
      | Except.ok hmm0 =>
          match calibration hmm0 with
          | Except.error e =>
              { status := e, errbuf := Msg.empty, hmm := none, tr := none,
                seqmodelCalled := true }
          | Except.ok hmm1 =>
              { status := Status.eslOK, errbuf := Msg.empty
                hmm := if wantHmm then some hmm1 else none
                tr := if wantTr then some (singleBuilder_fauxTrace n) else none
                seqmodelCalled := true }

/-- A search profile (P7_PROFILE), opaque to this pipeline beyond
being produced by calibration. -/
structure P7_PROFILE where
  id : ℕ
  deriving DecidableEq

/-- An optimized search profile (P7_OPROFILE), opaque to this pipeline
beyond being produced by calibration. -/
structure P7_OPROFILE where
  id : ℕ
  deriving DecidableEq

/-- The heap objects p7_Builder can own while running: the model, the
trace array, and the profile and optimized profile slots it fills for
the caller, plus the reconstructed alignment. -/
inductive OwnedObj where
  | hmmObj
  | trObj
  | gmObj
  | omObj
  | postmsaObj
  deriving DecidableEq

/-- Observable outcome of p7_Builder: the returned status, the five
optional outputs handed to the caller, and the list of owned heap
objects that were allocated but neither freed nor handed out (the
leak ledger; the claim is that it is always empty on error). -/
structure BuilderResult where
  status : Status
  hmm : Option P7_HMM
  trarr : Option (List P7_TRACE)
  gm : Option P7_PROFILE
  om : Option P7_OPROFILE
  postmsa : Option ESL_MSA
  leaked : List OwnedObj
  deriving DecidableEq

/-- The ERROR block of p7_Builder (src/src/p7_builder.c:326 to 331):
p7_hmm_Destroy(hmm), p7_trace_DestroyArray(tr), and, when the caller
requested them, destruction of the profile and optimized profile
slots.  No output is handed to the caller; the leak ledger is what was
allocated minus what this block frees. -/
def p7_Builder_errorReturn (wantGm wantOm : Bool)
    (allocated : List OwnedObj) (st : Status) : BuilderResult :=
  let freed : List OwnedObj :=
    [OwnedObj.hmmObj, OwnedObj.trObj]
      ++ (if wantGm then [OwnedObj.gmObj] else [])
      ++ (if wantOm then [OwnedObj.omObj] else [])
  { status := st, hmm := none, trarr := none, gm := none, om := none,
    postmsa := none,
    leaked := allocated.filter (fun o => ! (freed.contains o)) }

/-- p7_Builder (src/src/p7_builder.c:304).  The seven stages are
oracle arguments standing for the corresponding static functions
(those functions themselves are embedded separately above where a
claim depends on their internals); each either produces the data the
next stage consumes or fails with a status code.  tr_ptr is non null,
so tracebacks are requested from build_model, exactly when the caller
wants the trace array or the post msa (line 311).  Each stage failure
jumps to the shared ERROR block.  On success the model is handed out
or destroyed per opt_hmm, and likewise the trace array (lines 322 to
323); the calibration stage fills the caller profile slots only when
requested, and make_post_msa runs only when the post msa was
requested (line 602). -/
def p7_Builder (wantHmm wantTr wantPost wantGm wantOm : Bool)
    (rw : Except Status ESL_MSA)
    (bm : ESL_MSA → Bool → Except Status (P7_HMM × List P7_TRACE))
    (es : P7_HMM → Except Status P7_HMM)
    (pz : P7_HMM → Except Status P7_HMM)
    (an : P7_HMM → Except Status P7_HMM)
    (cal : P7_HMM → Except Status (P7_HMM × P7_PROFILE × P7_OPROFILE))
    (pm : ESL_MSA → P7_HMM → List P7_TRACE → Except Status ESL_MSA) :
    BuilderResult :=
  match rw with
  | Except.error e => p7_Builder_errorReturn wantGm wantOm [] e
  | Except.ok msa1 =>
  match bm msa1 (wantTr || wantPost) with
  | Except.error e => p7_Builder_errorReturn wantGm wantOm [] e
  | Except.ok (hmm1, trs) =>
  match es hmm1 with
  | Except.error e =>
      p7_Builder_errorReturn wantGm wantOm
        ([OwnedObj.hmmObj]
          ++ (if wantTr || wantPost then [OwnedObj.trObj] else [])) e
  | Except.ok hmm2 =>
  match pz hmm2 with
  | Except.error e =>
      p7_Builder_errorReturn wantGm wantOm
        ([OwnedObj.hmmObj]
          ++ (if wantTr || wantPost then [OwnedObj.trObj] else [])) e
  | Except.ok hmm3 =>
  match an hmm3 with
  | Except.error e =>
      p7_Builder_errorReturn wantGm wantOm
        ([OwnedObj.hmmObj]
          ++ (if wantTr || wantPost then [OwnedObj.trObj] else [])) e
  | Except.ok hmm4 =>
  match cal hmm4 with
  | Except.error e =>
      p7_Builder_errorReturn wantGm wantOm
        ([OwnedObj.hmmObj]
          ++ (if wantTr || wantPost then [OwnedObj.trObj] else [])) e
  | Except.ok (hmm5, gmv, omv) =>
  match (if wantPost then pm msa1 hmm5 trs else Except.ok msa1) with
  | Except.error e =>
      p7_Builder_errorReturn wantGm wantOm
        (([OwnedObj.hmmObj]
           ++ (if wantTr || wantPost then [OwnedObj.trObj] else []))
          ++ (if wantGm then [OwnedObj.gmObj] else [])
          ++ (if wantOm then [OwnedObj.omObj] else [])) e
  | Except.ok postv =>
      { status := Status.eslOK
        hmm := if wantHmm then some hmm5 else none
        trarr := if wantTr then some trs else none
        gm := if wantGm then some gmv else none
        om := if wantOm then some omv else none
        postmsa := if wantPost then some postv else none
        leaked :=
          ((([OwnedObj.hmmObj]
              ++ (if wantTr || wantPost then [OwnedObj.trObj] else []))
             ++ (if wantGm then [OwnedObj.gmObj] else [])
             ++ (if wantOm then [OwnedObj.omObj] else []))
            ++ (if wantPost then [OwnedObj.postmsaObj] else [])).filter
            (fun o =>
              ! (((if wantHmm then [OwnedObj.hmmObj] else [])
                   ++ (if wantTr then [OwnedObj.trObj] else [])
                   ++ (if wantGm then [OwnedObj.gmObj] else [])
                   ++ (if wantOm then [OwnedObj.omObj] else [])
                   ++ (if wantPost then [OwnedObj.postmsaObj] else [])).contains o)
                && ! (((if wantHmm then [] else [OwnedObj.hmmObj])
                   ++ (if wantTr then [] else [OwnedObj.trObj])).contains o)) }

/-- The first failing stage of the pipeline and its status, written
down independently of p7_Builder, following the words of the spec
(section 7): the pipeline stops at the first failing stage and returns
the same tagged failure upward.  This definition recomputes the stage
outcomes in pipeline order and reports the first error, or none when
every stage succeeds. -/
def p7_Builder_firstFailure (wantTr wantPost : Bool)
    (rw : Except Status ESL_MSA)
    (bm : ESL_MSA → Bool → Except Status (P7_HMM × List P7_TRACE))
    (es : P7_HMM → Except Status P7_HMM)
    (pz : P7_HMM → Except Status P7_HMM)
    (an : P7_HMM → Except Status P7_HMM)
    (cal : P7_HMM → Except Status (P7_HMM × P7_PROFILE × P7_OPROFILE))
    (pm : ESL_MSA → P7_HMM → List P7_TRACE → Except Status ESL_MSA) :
    Option Status :=
  match rw with
  | Except.error e => some e
  | Except.ok msa1 =>
  match bm msa1 (wantTr || wantPost) with
  | Except.error e => some e
  | Except.ok (hmm1, trs) =>
  match es hmm1 with
  | Except.error e => some e
  | Except.ok hmm2 =>
  match pz hmm2 with
  | Except.error e => some e
  | Except.ok hmm3 =>
  match an hmm3 with
  | Except.error e => some e
  | Except.ok hmm4 =>
  match cal hmm4 with
  | Except.error e => some e
  | Except.ok (hmm5, _, _) =>
  match (if wantPost then pm msa1 hmm5 trs else Except.ok msa1) with
  | Except.error e => some e
  | Except.ok _ => none

/-- The inputs the calibration simulation depends on besides the
random stream, reduced to identifiers for the model and the null
model. -/
structure CalibInputs where
  hmmId : ℕ
  bgId : ℕ
  deriving DecidableEq

/-- Modelled from the spec (sections 4.8 and 5): p7_Calibrate, the
external simulation based calibration routine, is deterministic given
the state of the random source and its inputs.  When do_reseeding is
set it first reinitializes the random source to its original seed, so
the simulation always sees the stream from position 0; otherwise it
consumes the continuing stream.  sim abstracts the whole two
simulation fit: it maps the seed and stream position the simulation
starts from, plus the inputs, to the resulting E value parameters
(one rational stands for the fitted parameter vector, bit for bit).
consumed is how much of the stream the two simulations use up. -/
def p7_Calibrate (sim : ℤ → ℕ → CalibInputs → ℚ) (doReseed : Bool)
    (r : ESL_RANDOMNESS) (inp : CalibInputs) (consumed : ℕ) :
    ℚ × ESL_RANDOMNESS :=
  let r1 := if doReseed then { seed := r.seed, pos := 0 } else r
  (sim r1.seed r1.pos inp, { r1 with pos := r1.pos + consumed })

/-- calibrate (src/src/p7_builder.c:573) as seen from the random
source: it hands bld->r and bld->do_reseeding to p7_Calibrate and
stores the advanced source back into the builder. -/
def calibrate_rng (bld : P7_BUILDER) (sim : ℤ → ℕ → CalibInputs → ℚ)
    (inp : CalibInputs) (consumed : ℕ) : ℚ × P7_BUILDER :=
  let out := p7_Calibrate sim bld.do_reseeding bld.r inp consumed
  (out.1, { bld with r := out.2 })

/-- Projection of p7_builder_Create: the effective number strategy
resolved from a supplied option set. -/
theorem p7_builder_Create_effn (g : BuildOpts) (abc : AlphabetType) (a : ℤ) :
    (p7_builder_Create (some g) abc a).effn_strategy =
      (if g.eent then EffnStrategy.effnEntropy
       else if g.eclust then EffnStrategy.effnClust
       else if g.enone then EffnStrategy.effnNone
       else if g.esetOn then EffnStrategy.effnSet
       else EffnStrategy.effnEntropy) := rfl

/-- Projection of p7_builder_Create: the eset field resolved from a
supplied option set. -/
theorem p7_builder_Create_eset (g : BuildOpts) (abc : AlphabetType) (a : ℤ) :
    (p7_builder_Create (some g) abc a).eset =
      (if g.eent then -1
       else if g.eclust then -1
       else if g.enone then -1
       else if g.esetOn then g.esetVal
       else -1) := rfl

/-- Projection of p7_builder_Create: the random source. -/
theorem p7_builder_Create_r (go : Option BuildOpts) (abc : AlphabetType) (a : ℤ) :
    (p7_builder_Create go abc a).r =
      esl_randomness_Create (match go with | none => 0 | some g => g.seed) a := rfl

/-- Projection of p7_builder_Create: the reseeding flag. -/
theorem p7_builder_Create_reseed (go : Option BuildOpts) (abc : AlphabetType) (a : ℤ) :
    (p7_builder_Create go abc a).do_reseeding =
      (if (match go with | none => 0 | some g => g.seed) = (0 : ℤ)
       then false else true) := rfl

/-- C3 (amended: the position based override additionally requires
pbswitch ≠ -1, the sentinel that disables it).  For every alignment
whose sequence count meets the switch over threshold, with the
override enabled, relative_weights runs the position based algorithm
regardless of the configured strategy, except that the none strategy
sets every weight to 1 and the given strategy leaves the weights
untouched. -/
theorem claim_C3_pb_override (bld : P7_BUILDER) (msa : ESL_MSA)
    (alg : WgtAction → ESL_MSA → Except Status (List ℚ))
    (hpb : bld.pbswitch ≠ -1) (hge : (msa.nseq : ℤ) ≥ bld.pbswitch) :
    (bld.wgt_strategy = WgtStrategy.wnone →
       relative_weights bld msa alg =
         Except.ok { msa with wgt := List.replicate msa.nseq 1 }) ∧
    (bld.wgt_strategy = WgtStrategy.wgiven →
       relative_weights bld msa alg = Except.ok msa) ∧
    (bld.wgt_strategy ≠ WgtStrategy.wnone →
       bld.wgt_strategy ≠ WgtStrategy.wgiven →
       relative_weights_action bld msa.nseq = WgtAction.runPB) := by
  refine ⟨fun h => ?_, fun h => ?_, fun hn hg => ?_⟩
  · simp [relative_weights, relative_weights_action, h]
  · cases hw : bld.wgt_strategy <;>
      simp [relative_weights, relative_weights_action, hw] at h ⊢
  · simp [relative_weights_action, hn, hg, hpb, hge]

/-- Witness for C3 at a concrete input: the default configuration
(GSC weighting, pbswitch 1000) on an alignment of 1000 sequences is
forced to the position based algorithm. -/
theorem claim_C3_pb_override_witness :
    relative_weights_action (p7_builder_Create none AlphabetType.amino 0) 1000 =
      WgtAction.runPB :=
  (claim_C3_pb_override (p7_builder_Create none AlphabetType.amino 0)
      { nseq := 1000, wgt := [] } (fun _ _ => Except.ok [])
      (by decide) (by decide)).2.2 (by decide) (by decide)

/-- Counterexample to C3 as stated: with pbswitch = -1 every sequence
count satisfies nseq ≥ pbswitch, the GSC strategy is neither none nor
given, and yet the GSC algorithm runs, not the position based one. -/
theorem claim_C3_counterexample :
    let g : BuildOpts :=
      { fast := true, hand := false, wgsc := true, wblosum := false,
        wpb := false, wnone := false, wgiven := false, eent := true,
        eclust := false, enone := false, esetOn := false, esetVal := 0,
        seed := 42, symfrac := 1/2, pbswitch := -1, wid := 62/100,
        ereOn := false, ereVal := 0, eX := 6, eid := 62/100,
        EvL := 100, EvN := 200, EfL := 100, EfN := 200, Eft := 4/100 }
    let bld := p7_builder_Create (some g) AlphabetType.amino 0
    (1 : ℤ) ≥ bld.pbswitch ∧
      bld.wgt_strategy ≠ WgtStrategy.wnone ∧
      bld.wgt_strategy ≠ WgtStrategy.wgiven ∧
      relative_weights_action bld 1 = WgtAction.runGSC ∧
      relative_weights_action bld 1 ≠ WgtAction.runPB := by
  decide

/-- C10: setting pbswitch to -1 disables the large alignment override
entirely: whatever the sequence count, relative_weights dispatches to
the nominally selected weighting algorithm. -/
theorem claim_C10_pbswitch_disabled (bld : P7_BUILDER) (nseq : ℕ)
    (h : bld.pbswitch = -1) :
    (bld.wgt_strategy = WgtStrategy.wpb →
       relative_weights_action bld nseq = WgtAction.runPB) ∧
    (bld.wgt_strategy = WgtStrategy.wgsc →
       relative_weights_action bld nseq = WgtAction.runGSC) ∧
    (bld.wgt_strategy = WgtStrategy.wblosum →
       relative_weights_action bld nseq = WgtAction.runBLOSUM) := by
  refine ⟨fun hw => ?_, fun hw => ?_, fun hw => ?_⟩ <;>
    simp [relative_weights_action, hw, h]

/-- Witness for C10 at a concrete input: with pbswitch = -1 and GSC
weighting, an alignment of 5000 sequences still gets GSC weights. -/
theorem claim_C10_pbswitch_disabled_witness :
    relative_weights_action
      { p7_builder_Create none AlphabetType.amino 0 with pbswitch := -1 }
      5000 = WgtAction.runGSC :=
  (claim_C10_pbswitch_disabled
      { p7_builder_Create none AlphabetType.amino 0 with pbswitch := -1 }
      5000 (by decide)).2.1 (by decide)

/-- C4: every successful branch of effective_seqnumber ends by scaling
every count in the model by the ratio of the effective to the nominal
sequence count; under the none strategy the effective count equals the
nominal sequence count, so when the model carries that same nominal
count the scaling is a no-op; under the set strategy the effective
count equals the caller supplied eset value. -/
theorem claim_C4_effective_scaling (bld : P7_BUILDER) (msa : ESL_MSA)
    (hmm : P7_HMM) (sl : Except Status ℕ) (ew : Except Status ℚ) :
    (∀ h2, effective_seqnumber bld msa hmm sl ew = Except.ok h2 →
       h2.counts = hmm.counts.map (fun c => c * (h2.eff_nseq / (hmm.nseq : ℚ)))) ∧
    (bld.effn_strategy = EffnStrategy.effnNone →
       effective_seqnumber bld msa hmm sl ew =
         Except.ok (p7_hmm_Scale { hmm with eff_nseq := (msa.nseq : ℚ) }
           ((msa.nseq : ℚ) / (hmm.nseq : ℚ))) ∧
       (hmm.nseq = msa.nseq → 0 < hmm.nseq →
          ∀ h2, effective_seqnumber bld msa hmm sl ew = Except.ok h2 →
            h2.counts = hmm.counts)) ∧
    (bld.effn_strategy = EffnStrategy.effnSet →
       effective_seqnumber bld msa hmm sl ew =
         Except.ok (p7_hmm_Scale { hmm with eff_nseq := bld.eset }
           (bld.eset / (hmm.nseq : ℚ)))) := by
  refine ⟨?_, fun hs => ⟨?_, fun hnom hpos h2 hok => ?_⟩, fun hs => ?_⟩
  · intro h2 hok
    cases hst : bld.effn_strategy <;>
      simp [effective_seqnumber, hst] at hok
    case effnNone => cases hok; simp [p7_hmm_Scale]
    case effnSet => cases hok; simp [p7_hmm_Scale]
    case effnClust =>
      cases hsl : sl with
      | ok n => rw [hsl] at hok; simp at hok; cases hok; simp [p7_hmm_Scale]
      | error e =>
          rw [hsl] at hok
          cases e <;> simp at hok
    case effnEntropy =>
      cases hew : ew with
      | ok q => rw [hew] at hok; simp at hok; cases hok; simp [p7_hmm_Scale]
      | error e =>
          rw [hew] at hok
          cases e <;> simp at hok
  · simp [effective_seqnumber, hs]
  · have hpos2 : 0 < msa.nseq := hnom ▸ hpos
    have hne : (msa.nseq : ℚ) ≠ 0 := by
      exact_mod_cast Nat.pos_iff_ne_zero.mp hpos2
    simp [effective_seqnumber, hs] at hok
    cases hok
    simp [p7_hmm_Scale, hnom, div_self hne]
  · simp [effective_seqnumber, hs]

/-- Witness for C4 at a concrete input: a configuration with the set
strategy and eset = 3 on a model with nominal count 2 scales the
counts [2, 4] to [3, 6] and records eff_nseq = 3. -/
theorem claim_C4_effective_scaling_witness :
    effective_seqnumber
      (p7_builder_Create (some
        { fast := true, hand := false, wgsc := true, wblosum := false,
          wpb := false, wnone := false, wgiven := false, eent := false,
          eclust := false, enone := false, esetOn := true, esetVal := 3,
          seed := 42, symfrac := 1/2, pbswitch := 1000, wid := 62/100,
          ereOn := false, ereVal := 0, eX := 6, eid := 62/100,
          EvL := 100, EvN := 200, EfL := 100, EfN := 200, Eft := 4/100 })
        AlphabetType.amino 0)
      { nseq := 2, wgt := [] }
      { M := 1, nseq := 2, eff_nseq := 0, counts := [2, 4] }
      (Except.ok 1) (Except.ok 1) =
      Except.ok { M := 1, nseq := 2, eff_nseq := 3, counts := [3, 6] } := by
  have h := (claim_C4_effective_scaling
    (p7_builder_Create (some
      { fast := true, hand := false, wgsc := true, wblosum := false,
        wpb := false, wnone := false, wgiven := false, eent := false,
        eclust := false, enone := false, esetOn := true, esetVal := 3,
        seed := 42, symfrac := 1/2, pbswitch := 1000, wid := 62/100,
        ereOn := false, ereVal := 0, eX := 6, eid := 62/100,
        EvL := 100, EvN := 200, EfL := 100, EfN := 200, Eft := 4/100 })
      AlphabetType.amino 0)
    { nseq := 2, wgt := [] }
    { M := 1, nseq := 2, eff_nseq := 0, counts := [2, 4] }
    (Except.ok 1) (Except.ok 1)).2.2 (by decide)
  rw [h]
  congr 1
  simp [p7_hmm_Scale, p7_builder_Create_eset]
  norm_num

/-- C6: a score matrix that fails the symmetry check is rejected with
eslEINVAL and the matrix not symmetric message before probabilification
is ever attempted, and the Yu and Altschul probabilification runs only
on matrices that passed the symmetry check. -/
theorem claim_C6_symmetry_before_probify
    (load : Except (Status × Msg) (List (List ℤ)))
    (probify : List (List ℤ) → Except Status (ESL_DMATRIX × List ℚ)) :
    (∀ S, load = Except.ok S → esl_scorematrix_IsSymmetric S = false →
       p7_builder_SetScoreSystem load probify =
         { status := Status.eslEINVAL, errbuf := Msg.matrixNotSymmetric,
           probifyCalled := false, Q := none }) ∧
    ((p7_builder_SetScoreSystem load probify).probifyCalled = true →
       ∃ S, load = Except.ok S ∧ esl_scorematrix_IsSymmetric S = true) := by
  constructor
  · intro S hload hsym
    simp [p7_builder_SetScoreSystem, hload, hsym]
  · intro hcalled
    cases hload : load with
    | error em =>
        obtain ⟨st, m⟩ := em
        simp [p7_builder_SetScoreSystem, hload] at hcalled
    | ok S =>
        refine ⟨S, rfl, ?_⟩
        by_contra hsym
        have hs : esl_scorematrix_IsSymmetric S = false :=
          Bool.not_eq_true _ ▸ eq_false_of_ne_true hsym
        simp [p7_builder_SetScoreSystem, hload, hs] at hcalled

/-- Witness for C6 at a concrete input: the 2 by 2 matrix with entries
0 1 / 2 0 is not symmetric and is rejected with eslEINVAL and the
matrix not symmetric message, without the probabilifier running. -/
theorem claim_C6_symmetry_before_probify_witness :
    p7_builder_SetScoreSystem (Except.ok [[0, 1], [2, 0]])
      (fun _ => Except.ok ({ rows := [] }, [])) =
      { status := Status.eslEINVAL, errbuf := Msg.matrixNotSymmetric,
        probifyCalled := false, Q := none } :=
  (claim_C6_symmetry_before_probify (Except.ok [[0, 1], [2, 0]])
      (fun _ => Except.ok ({ rows := [] }, []))).1
    [[0, 1], [2, 0]] rfl (by decide)

/-- C7: calling p7_SingleBuilder on a builder whose score system was
never initialized (bld->Q is null) fails with eslEINVAL, populates the
score system message, hands no model or trace to the caller, and never
invokes the sequence model construction. -/
theorem claim_C7_score_system_guard (bld : P7_BUILDER) (n : ℕ)
    (wantHmm wantTr : Bool) (seqmodel : Except Status P7_HMM)
    (calibration : P7_HMM → Except Status P7_HMM)
    (hq : bld.Q = none) :
    p7_SingleBuilder bld n wantHmm wantTr seqmodel calibration =
      { status := Status.eslEINVAL, errbuf := Msg.scoreSystemNotInitialized,
        hmm := none, tr := none, seqmodelCalled := false } := by
  simp [p7_SingleBuilder, hq]

/-- Witness for C7 at a concrete input: a freshly created default
builder (whose Q is null) fails single sequence building with
eslEINVAL even though the model construction oracle would succeed. -/
theorem claim_C7_score_system_guard_witness :
    p7_SingleBuilder (p7_builder_Create none AlphabetType.amino 0) 5 true true
      (Except.ok { M := 5, nseq := 1, eff_nseq := 1, counts := [] })
      (fun h => Except.ok h) =
      { status := Status.eslEINVAL, errbuf := Msg.scoreSystemNotInitialized,
        hmm := none, tr := none, seqmodelCalled := false } :=
  claim_C7_score_system_guard (p7_builder_Create none AlphabetType.amino 0) 5
    true true (Except.ok { M := 5, nseq := 1, eff_nseq := 1, counts := [] })
    (fun h => Except.ok h) rfl

/-- Appending match states for each element of a list, one
p7_trace_Append at a time, extends the steps by the mapped list. -/
theorem foldl_trace_Append (l : List ℕ) (tr : P7_TRACE) :
    l.foldl (fun t k => p7_trace_Append t TraceState.M (k + 1) (k + 1)) tr =
      { tr with steps :=
          tr.steps ++ l.map (fun k => (TraceState.M, k + 1, k + 1)) } := by
  induction l generalizing tr with
  | nil => simp
  | cons a l ih =>
      rw [List.foldl_cons, ih]
      simp [p7_trace_Append]

/-- The faux trace of p7_SingleBuilder in closed form: Begin, one
match state per residue with node index and sequence position both k,
then End, with the model and sequence length fields set to n. -/
theorem singleBuilder_fauxTrace_eq (n : ℕ) :
    singleBuilder_fauxTrace n =
      { steps := (TraceState.B, 0, 0) ::
          ((List.range n).map (fun k => (TraceState.M, k + 1, k + 1)) ++
            [(TraceState.E, 0, 0)]),
        M := n, L := n } := by
  unfold singleBuilder_fauxTrace
  dsimp only
  rw [foldl_trace_Append]
  simp [p7_trace_Create, p7_trace_Append]

/-- C9: when a traceback is requested and the build succeeds, the
trace p7_SingleBuilder returns for a query of length n is exactly the
linear sequence Begin, then match states M_1 through M_n with node
index k and sequence position k, then End, and both its model length
field and its sequence length field equal n. -/
theorem claim_C9_faux_trace (bld : P7_BUILDER) (n : ℕ) (wantHmm : Bool)
    (q : ESL_DMATRIX) (hmm0 hmm1 : P7_HMM)
    (calibration : P7_HMM → Except Status P7_HMM)
    (hq : bld.Q = some q) (hcal : calibration hmm0 = Except.ok hmm1) :
    (p7_SingleBuilder bld n wantHmm true (Except.ok hmm0) calibration).tr =
      some { steps := (TraceState.B, 0, 0) ::
               ((List.range n).map (fun k => (TraceState.M, k + 1, k + 1)) ++
                 [(TraceState.E, 0, 0)]),
             M := n, L := n } := by
  simp [p7_SingleBuilder, hq, hcal, singleBuilder_fauxTrace_eq]

/-- Witness for C9 at a concrete input: a query of length 3 yields the
trace B, M_1, M_2, M_3, E with both length fields equal to 3. -/
theorem claim_C9_faux_trace_witness :
    (p7_SingleBuilder
        { p7_builder_Create none AlphabetType.amino 0 with
            Q := some { rows := [] } }
        3 true true
        (Except.ok { M := 3, nseq := 1, eff_nseq := 1, counts := [] })
        (fun h => Except.ok h)).tr =
      some { steps := [(TraceState.B, 0, 0), (TraceState.M, 1, 1),
               (TraceState.M, 2, 2), (TraceState.M, 3, 3),
               (TraceState.E, 0, 0)],
             M := 3, L := 3 } := by
  have h := claim_C9_faux_trace
    { p7_builder_Create none AlphabetType.amino 0 with Q := some { rows := [] } }
    3 true { rows := [] }
    { M := 3, nseq := 1, eff_nseq := 1, counts := [] }
    { M := 3, nseq := 1, eff_nseq := 1, counts := [] }
    (fun h => Except.ok h) rfl rfl
  rw [h]
  decide

/-- C8 (amended: p7_builder_Create copies the caller supplied --eset
value into eset without validating it, so the invariant that eset is
nonnegative whenever the set strategy is active holds provided the
supplied value is nonnegative; a default created builder never has the
set strategy active, so the invariant holds vacuously there; and
effective_seqnumber relies on the field by assigning eff_nseq = eset
whenever the set strategy is active). -/
theorem claim_C8_eset_invariant (abc : AlphabetType) (a : ℤ) :
    ((p7_builder_Create none abc a).effn_strategy ≠ EffnStrategy.effnSet) ∧
    (∀ g : BuildOpts, 0 ≤ g.esetVal →
       (p7_builder_Create (some g) abc a).effn_strategy =
         EffnStrategy.effnSet →
       0 ≤ (p7_builder_Create (some g) abc a).eset) ∧
    (∀ (bld : P7_BUILDER) (msa : ESL_MSA) (hmm : P7_HMM)
       (sl : Except Status ℕ) (ew : Except Status ℚ),
       bld.effn_strategy = EffnStrategy.effnSet →
       effective_seqnumber bld msa hmm sl ew =
         Except.ok (p7_hmm_Scale { hmm with eff_nseq := bld.eset }
           (bld.eset / (hmm.nseq : ℚ)))) := by
  refine ⟨fun hcon => ?_, fun g hge hset => ?_, fun bld msa hmm sl ew hset => ?_⟩
  · have hdefault : EffnStrategy.effnEntropy = EffnStrategy.effnSet := hcon
    exact absurd hdefault (by decide)
  · rw [p7_builder_Create_effn] at hset
    rw [p7_builder_Create_eset]
    cases he : g.eent <;> cases hc : g.eclust <;> cases hn : g.enone <;>
      cases ho : g.esetOn <;> simp_all
  · simp [effective_seqnumber, hset]

/-- Witness for C8 at a concrete input: an option set selecting the
set strategy with --eset 7 yields a builder whose eset is nonnegative,
and effective_seqnumber under that builder assigns eff_nseq = 7. -/
theorem claim_C8_eset_invariant_witness :
    0 ≤ (p7_builder_Create (some
      { fast := true, hand := false, wgsc := true, wblosum := false,
        wpb := false, wnone := false, wgiven := false, eent := false,
        eclust := false, enone := false, esetOn := true, esetVal := 7,
        seed := 42, symfrac := 1/2, pbswitch := 1000, wid := 62/100,
        ereOn := false, ereVal := 0, eX := 6, eid := 62/100,
        EvL := 100, EvN := 200, EfL := 100, EfN := 200, Eft := 4/100 })
      AlphabetType.amino 0).eset :=
  (claim_C8_eset_invariant AlphabetType.amino 0).2.1
    { fast := true, hand := false, wgsc := true, wblosum := false,
      wpb := false, wnone := false, wgiven := false, eent := false,
      eclust := false, enone := false, esetOn := true, esetVal := 7,
      seed := 42, symfrac := 1/2, pbswitch := 1000, wid := 62/100,
      ereOn := false, ereVal := 0, eX := 6, eid := 62/100,
      EvL := 100, EvN := 200, EfL := 100, EfN := 200, Eft := 4/100 }
    (by decide) (by decide)

/-- Counterexample to C8 as stated: p7_builder_Create does not
establish the nonnegativity of eset; supplying --eset -2 yields a
builder with the set strategy active and a negative eset. -/
theorem claim_C8_counterexample :
    let bld := p7_builder_Create (some
      { fast := true, hand := false, wgsc := true, wblosum := false,
        wpb := false, wnone := false, wgiven := false, eent := false,
        eclust := false, enone := false, esetOn := true, esetVal := -2,
        seed := 42, symfrac := 1/2, pbswitch := 1000, wid := 62/100,
        ereOn := false, ereVal := 0, eX := 6, eid := 62/100,
        EvL := 100, EvN := 200, EfL := 100, EfN := 200, Eft := 4/100 })
      AlphabetType.amino 0
    bld.effn_strategy = EffnStrategy.effnSet ∧ bld.eset < 0 := by
  decide

/-- The ERROR block leaks nothing when nothing was allocated. -/
theorem errorReturn_nil (wg wo : Bool) (st : Status) :
    p7_Builder_errorReturn wg wo [] st =
      { status := st, hmm := none, trarr := none, gm := none, om := none,
        postmsa := none, leaked := [] } := by
  rfl

/-- The ERROR block frees the model and the trace array, so nothing
leaks when they are the only allocations. -/
theorem errorReturn_model_traces (wg wo b : Bool) (st : Status) :
    p7_Builder_errorReturn wg wo
        ([OwnedObj.hmmObj] ++ (if b then [OwnedObj.trObj] else [])) st =
      { status := st, hmm := none, trarr := none, gm := none, om := none,
        postmsa := none, leaked := [] } := by
  cases wg <;> cases wo <;> cases b <;> rfl

/-- The ERROR block also frees the requested profile and optimized
profile slots, so nothing leaks after calibration has filled them. -/
theorem errorReturn_after_calibration (wg wo b : Bool) (st : Status) :
    p7_Builder_errorReturn wg wo
        (([OwnedObj.hmmObj] ++ (if b then [OwnedObj.trObj] else []))
          ++ (if wg then [OwnedObj.gmObj] else [])
          ++ (if wo then [OwnedObj.omObj] else [])) st =
      { status := st, hmm := none, trarr := none, gm := none, om := none,
        postmsa := none, leaked := [] } := by
  cases wg <;> cases wo <;> cases b <;> rfl

/-- C1: if any stage of p7_Builder fails, the pipeline stops there,
returns that first failing stage status upward, hands no output to
the caller, and releases every object it owns, leaking nothing. -/
theorem claim_C1_pipeline_error_cleanup
    (wantHmm wantTr wantPost wantGm wantOm : Bool)
    (rw : Except Status ESL_MSA)
    (bm : ESL_MSA → Bool → Except Status (P7_HMM × List P7_TRACE))
    (es : P7_HMM → Except Status P7_HMM)
    (pz : P7_HMM → Except Status P7_HMM)
    (an : P7_HMM → Except Status P7_HMM)
    (cal : P7_HMM → Except Status (P7_HMM × P7_PROFILE × P7_OPROFILE))
    (pm : ESL_MSA → P7_HMM → List P7_TRACE → Except Status ESL_MSA)
    (e : Status)
    (h : p7_Builder_firstFailure wantTr wantPost rw bm es pz an cal pm = some e) :
    p7_Builder wantHmm wantTr wantPost wantGm wantOm rw bm es pz an cal pm =
      { status := e, hmm := none, trarr := none, gm := none, om := none,
        postmsa := none, leaked := [] } := by
  unfold p7_Builder_firstFailure at h
  unfold p7_Builder
  cases hrw : rw with
  | error e0 =>
      rw [hrw] at h
      simp at h
      subst h
      exact errorReturn_nil wantGm wantOm e0
  | ok msa1 =>
  rw [hrw] at h
  simp only [] at h
  dsimp only
  cases hbm : bm msa1 (wantTr || wantPost) with
  | error e0 =>
      rw [hbm] at h
      simp at h
      subst h
      exact errorReturn_nil wantGm wantOm e0
  | ok pair =>
  obtain ⟨hmm1, trs⟩ := pair
  rw [hbm] at h
  simp only [] at h
  dsimp only
  cases hes : es hmm1 with
  | error e0 =>
      rw [hes] at h
      simp at h
      subst h
      exact errorReturn_model_traces wantGm wantOm (wantTr || wantPost) e0
  | ok hmm2 =>
  rw [hes] at h
  simp only [] at h
  dsimp only
  cases hpz : pz hmm2 with
  | error e0 =>
      rw [hpz] at h
      simp at h
      subst h
      exact errorReturn_model_traces wantGm wantOm (wantTr || wantPost) e0
  | ok hmm3 =>
  rw [hpz] at h
  simp only [] at h
  dsimp only
  cases han : an hmm3 with
  | error e0 =>
      rw [han] at h
      simp at h
      subst h
      exact errorReturn_model_traces wantGm wantOm (wantTr || wantPost) e0
  | ok hmm4 =>
  rw [han] at h
  simp only [] at h
  dsimp only
  cases hcal : cal hmm4 with
  | error e0 =>
      rw [hcal] at h
      simp at h
      subst h
      exact errorReturn_model_traces wantGm wantOm (wantTr || wantPost) e0
  | ok tripl =>
  obtain ⟨hmm5, gmv, omv⟩ := tripl
  rw [hcal] at h
  simp only [] at h
  dsimp only
  cases hpm : (if wantPost then pm msa1 hmm5 trs else Except.ok msa1) with
  | error e0 =>
      rw [hpm] at h
      simp at h
      subst h
      exact errorReturn_after_calibration wantGm wantOm (wantTr || wantPost) e0
  | ok postv =>
      rw [hpm] at h
      simp at h

/-- Witness for C1 at a concrete input: a pipeline whose
parameterization stage fails with eslEINVAL, all outputs requested,
returns eslEINVAL, hands out nothing and leaks nothing. -/
theorem claim_C1_pipeline_error_cleanup_witness :
    p7_Builder true true true true true
      (Except.ok { nseq := 2, wgt := [1, 1] })
      (fun m _ => Except.ok
        ({ M := 4, nseq := m.nseq, eff_nseq := 0, counts := [1] }, []))
      (fun h => Except.ok h)
      (fun _ => Except.error Status.eslEINVAL)
      (fun h => Except.ok h)
      (fun h => Except.ok (h, { id := 0 }, { id := 0 }))
      (fun m _ _ => Except.ok m) =
      { status := Status.eslEINVAL, hmm := none, trarr := none, gm := none,
        om := none, postmsa := none, leaked := [] } :=
  claim_C1_pipeline_error_cleanup true true true true true
    (Except.ok { nseq := 2, wgt := [1, 1] })
    (fun m _ => Except.ok
      ({ M := 4, nseq := m.nseq, eff_nseq := 0, counts := [1] }, []))
    (fun h => Except.ok h)
    (fun _ => Except.error Status.eslEINVAL)
    (fun h => Except.ok h)
    (fun h => Except.ok (h, { id := 0 }, { id := 0 }))
    (fun m _ _ => Except.ok m)
    Status.eslEINVAL rfl

/-- C2: two calibration runs against configurations built with the
same nonzero seed and identical inputs produce bit identical
calibration parameters, whatever arbitrary entropy each process drew,
and successive calibrations in one process see identical random
streams; a configuration created with seed 0 has reseeding disabled,
and the stream its calibration consumes depends on the arbitrarily
chosen seed, which differs from run to run, so runs are not
reproducible. -/
theorem claim_C2_calibration_determinism
    (g : BuildOpts) (abc : AlphabetType) (a1 a2 : ℤ)
    (sim : ℤ → ℕ → CalibInputs → ℚ) (inp : CalibInputs) (consumed : ℕ)
    (hseed : g.seed ≠ 0) :
    (calibrate_rng (p7_builder_Create (some g) abc a1) sim inp consumed).1 =
      (calibrate_rng (p7_builder_Create (some g) abc a2) sim inp consumed).1 ∧
    (calibrate_rng
        (calibrate_rng (p7_builder_Create (some g) abc a1) sim inp consumed).2
        sim inp consumed).1 =
      (calibrate_rng (p7_builder_Create (some g) abc a1) sim inp consumed).1 ∧
    (p7_builder_Create (some g) abc a1).do_reseeding = true ∧
    (∀ g0 : BuildOpts, g0.seed = 0 →
       (p7_builder_Create (some g0) abc a1).do_reseeding = false ∧
       (a1 ≠ a2 →
         (p7_builder_Create (some g0) abc a1).r ≠
           (p7_builder_Create (some g0) abc a2).r)) := by
  have hr1 : (p7_builder_Create (some g) abc a1).r =
      { seed := g.seed, pos := 0 } := by
    rw [p7_builder_Create_r]
    simp [esl_randomness_Create, hseed]
  have hr2 : (p7_builder_Create (some g) abc a2).r =
      { seed := g.seed, pos := 0 } := by
    rw [p7_builder_Create_r]
    simp [esl_randomness_Create, hseed]
  have hd : (p7_builder_Create (some g) abc a1).do_reseeding = true := by
    rw [p7_builder_Create_reseed]
    simp [hseed]
  have hd2 : (p7_builder_Create (some g) abc a2).do_reseeding = true := by
    rw [p7_builder_Create_reseed]
    simp [hseed]
  refine ⟨?_, ?_, hd, fun g0 h0 => ⟨?_, fun hne => ?_⟩⟩
  · simp [calibrate_rng, p7_Calibrate, hr1, hr2, hd, hd2]
  · simp [calibrate_rng, p7_Calibrate, hr1, hd]
  · rw [p7_builder_Create_reseed]
    simp [h0]
  · rw [p7_builder_Create_r, p7_builder_Create_r]
    simp [esl_randomness_Create, h0]
    intro hcon
    exact hne hcon

/-- Witness for C2 at a concrete input: with seed 42, two processes
that drew different arbitrary entropy (0 and 1) still compute the same
calibration parameters from the simulation. -/
theorem claim_C2_calibration_determinism_witness :
    (calibrate_rng (p7_builder_Create (some
      { fast := true, hand := false, wgsc := true, wblosum := false,
        wpb := false, wnone := false, wgiven := false, eent := true,
        eclust := false, enone := false, esetOn := false, esetVal := 0,
        seed := 42, symfrac := 1/2, pbswitch := 1000, wid := 62/100,
        ereOn := false, ereVal := 0, eX := 6, eid := 62/100,
        EvL := 100, EvN := 200, EfL := 100, EfN := 200, Eft := 4/100 })
      AlphabetType.amino 0)
      (fun s p _ => (s : ℚ) + (p : ℚ)) { hmmId := 1, bgId := 1 } 10).1 =
    (calibrate_rng (p7_builder_Create (some
      { fast := true, hand := false, wgsc := true, wblosum := false,
        wpb := false, wnone := false, wgiven := false, eent := true,
        eclust := false, enone := false, esetOn := false, esetVal := 0,
        seed := 42, symfrac := 1/2, pbswitch := 1000, wid := 62/100,
        ereOn := false, ereVal := 0, eX := 6, eid := 62/100,
        EvL := 100, EvN := 200, EfL := 100, EfN := 200, Eft := 4/100 })
      AlphabetType.amino 1)
      (fun s p _ => (s : ℚ) + (p : ℚ)) { hmmId := 1, bgId := 1 } 10).1 :=
  (claim_C2_calibration_determinism
    { fast := true, hand := false, wgsc := true, wblosum := false,
      wpb := false, wnone := false, wgiven := false, eent := true,
      eclust := false, enone := false, esetOn := false, esetVal := 0,
      seed := 42, symfrac := 1/2, pbswitch := 1000, wid := 62/100,
      ereOn := false, ereVal := 0, eX := 6, eid := 62/100,
      EvL := 100, EvN := 200, EfL := 100, EfN := 200, Eft := 4/100 }
    AlphabetType.amino 0 1
    (fun s p _ => (s : ℚ) + (p : ℚ)) { hmmId := 1, bgId := 1 } 10
    (by decide)).1

/-- The C integer division (M*(M+1))/2 is exact, since M*(M+1) is
even, so its cast to the reals is the triangular number itself. -/
theorem tri_cast (M : ℕ) :
    (((M * (M + 1)) / 2 : ℕ) : ℝ) = (M : ℝ) * ((M : ℝ) + 1) / 2 := by
  have h2 : 2 ∣ M * (M + 1) := (Nat.even_mul_succ_self M).two_dvd
  rw [Nat.cast_div h2 (by norm_num)]
  push_cast
  ring

/-- default_target_relent written with exact real arithmetic: the max
of the alphabet floor and the length dependent formula. -/
theorem default_target_relent_eq (eX etfloor : ℝ) (M : ℕ) :
    default_target_relent eX etfloor M =
      max etfloor
        (6 * (eX + Real.log ((M : ℝ) * ((M : ℝ) + 1) / 2) / Real.log 2) /
          (2 * (M : ℝ) + 4)) := by
  unfold default_target_relent
  dsimp only
  rw [tri_cast]
  push_cast
  ring_nf

/-- Key inequality: when eX is at least 3 log2 3, the growth of the
log term from model length M to M+1 is dominated, which is what makes
the raw target non increasing. -/
theorem default_target_relent_key (eX : ℝ) (M : ℕ) (hM : 1 ≤ M)
    (heX : 3 * Real.log 3 / Real.log 2 ≤ eX) :
    ((M : ℝ) + 2) * Real.log (((M : ℝ) + 2) / (M : ℝ)) ≤
      eX * Real.log 2 + Real.log ((M : ℝ) * ((M : ℝ) + 1) / 2) := by
  have L2pos : (0 : ℝ) < Real.log 2 := Real.log_pos (by norm_num)
  have h33 : 3 * Real.log 3 ≤ eX * Real.log 2 := by
    rw [div_le_iff L2pos] at heX
    linarith
  have hl23 : Real.log 2 ≤ Real.log 3 :=
    Real.log_le_log (by norm_num) (by norm_num)
  rcases Nat.lt_or_ge M 3 with h3 | h3
  · interval_cases M
    · norm_num [Real.log_one]
      linarith
    · norm_num
      linarith
  · have hm3 : (3 : ℝ) ≤ (M : ℝ) := by exact_mod_cast h3
    have hmpos : (0 : ℝ) < (M : ℝ) := by linarith
    have hfrac : ((M : ℝ) + 2) / (M : ℝ) = 1 + 2 / (M : ℝ) := by
      field_simp
    have hc : Real.log (((M : ℝ) + 2) / (M : ℝ)) ≤ 2 / (M : ℝ) := by
      rw [hfrac]
      have hp : (0 : ℝ) < 1 + 2 / (M : ℝ) := by positivity
      have := Real.log_le_sub_one_of_pos hp
      linarith
    have hprod : ((M : ℝ) + 2) * Real.log (((M : ℝ) + 2) / (M : ℝ)) ≤
        ((M : ℝ) + 2) * (2 / (M : ℝ)) :=
      mul_le_mul_of_nonneg_left hc (by linarith)
    have hexp : ((M : ℝ) + 2) * (2 / (M : ℝ)) = 2 + 4 / (M : ℝ) := by
      field_simp
      ring
    have h4m : 4 / (M : ℝ) ≤ 4 / 3 := by
      rw [div_le_div_iff hmpos (by norm_num)]
      linarith
    have h6 : Real.log 6 ≤ Real.log ((M : ℝ) * ((M : ℝ) + 1) / 2) :=
      Real.log_le_log (by norm_num) (by nlinarith)
    have h46 : Real.log 4 ≤ Real.log 6 :=
      Real.log_le_log (by norm_num) (by norm_num)
    have h4 : Real.log 4 = 2 * Real.log 2 := by
      rw [show (4 : ℝ) = 2 ^ 2 by norm_num, Real.log_pow]
      norm_num
    have hL2d : (0.6931471803 : ℝ) < Real.log 2 := Real.log_two_gt_d9
    linarith [hprod, hexp, h4m, h6, h46, h4, hL2d, h33, hl23]

/-- With eX at least 3 log2 3 the floored target is non increasing
from model length M to M+1. -/
theorem default_target_relent_mono_step (eX etfloor : ℝ) (M : ℕ) (hM : 1 ≤ M)
    (heX : 3 * Real.log 3 / Real.log 2 ≤ eX) :
    default_target_relent eX etfloor (M + 1) ≤
      default_target_relent eX etfloor M := by
  have L2pos : (0 : ℝ) < Real.log 2 := Real.log_pos (by norm_num)
  have hm1 : (1 : ℝ) ≤ (M : ℝ) := by exact_mod_cast hM
  have hmpos : (0 : ℝ) < (M : ℝ) := by linarith
  have hT0pos : (0 : ℝ) < (M : ℝ) * ((M : ℝ) + 1) / 2 := by
    have h := mul_pos hmpos (show (0 : ℝ) < (M : ℝ) + 1 by linarith)
    linarith
  have hrpos : (0 : ℝ) < ((M : ℝ) + 2) / (M : ℝ) :=
    div_pos (by linarith) hmpos
  rw [default_target_relent_eq, default_target_relent_eq]
  push_cast
  have hT1 : ((M : ℝ) + 1) * (((M : ℝ) + 1) + 1) / 2 =
      ((M : ℝ) * ((M : ℝ) + 1) / 2) * (((M : ℝ) + 2) / (M : ℝ)) := by
    field_simp
    ring
  rw [hT1, Real.log_mul (ne_of_gt hT0pos) (ne_of_gt hrpos)]
  apply max_le_max (le_refl etfloor)
  have key := default_target_relent_key eX M hM heX
  have h1 : eX + (Real.log ((M : ℝ) * ((M : ℝ) + 1) / 2) +
        Real.log (((M : ℝ) + 2) / (M : ℝ))) / Real.log 2 =
      (eX * Real.log 2 + Real.log ((M : ℝ) * ((M : ℝ) + 1) / 2) +
        Real.log (((M : ℝ) + 2) / (M : ℝ))) / Real.log 2 := by
    field_simp
    ring
  have h2 : eX + Real.log ((M : ℝ) * ((M : ℝ) + 1) / 2) / Real.log 2 =
      (eX * Real.log 2 + Real.log ((M : ℝ) * ((M : ℝ) + 1) / 2)) /
        Real.log 2 := by
    field_simp
  rw [h1, h2, ← mul_div_assoc, ← mul_div_assoc, div_div, div_div]
  rw [div_le_div_iff
    (mul_pos L2pos (by linarith : (0 : ℝ) < 2 * ((M : ℝ) + 1) + 4))
    (mul_pos L2pos (by linarith : (0 : ℝ) < 2 * (M : ℝ) + 4))]
  have hnn : 0 ≤ 2 * (eX * Real.log 2 +
      Real.log ((M : ℝ) * ((M : ℝ) + 1) / 2)) -
      (2 * (M : ℝ) + 4) * Real.log (((M : ℝ) + 2) / (M : ℝ)) := by
    have hring : (2 * (M : ℝ) + 4) * Real.log (((M : ℝ) + 2) / (M : ℝ)) =
        2 * (((M : ℝ) + 2) * Real.log (((M : ℝ) + 2) / (M : ℝ))) := by
      ring
    rw [hring]
    linarith [key]
  nlinarith [mul_nonneg (mul_nonneg (show (0 : ℝ) ≤ 6 by norm_num) L2pos.le)
    hnn, L2pos]

/-- C5 (amended: the monotonicity in M holds provided the entropy
search offset eX is at least 3 log2 3, which covers the default
eX = 6; for smaller offsets the floored target can increase with M).
For every model length M at least 1, default_target_relent computes
6 (eX + log2 (M (M+1) / 2)) / (2M+4), floored at the alphabet
specific hard minimum, never returns a value below that floor, and,
when eX is at least 3 log2 3, is non increasing in M. -/
theorem claim_C5_default_relent (eX etfloor : ℝ) (M : ℕ) (hM : 1 ≤ M) :
    default_target_relent eX etfloor M =
      max etfloor
        (6 * (eX + Real.log ((M : ℝ) * ((M : ℝ) + 1) / 2) / Real.log 2) /
          (2 * (M : ℝ) + 4)) ∧
    etfloor ≤ default_target_relent eX etfloor M ∧
    (3 * Real.log 3 / Real.log 2 ≤ eX →
      default_target_relent eX etfloor (M + 1) ≤
        default_target_relent eX etfloor M) :=
  ⟨default_target_relent_eq eX etfloor M,
   by rw [default_target_relent_eq]; exact le_max_left _ _,
   fun heX => default_target_relent_mono_step eX etfloor M hM heX⟩

/-- Counterexample to C5 as stated: at offset eX = 4 (with any floor
not exceeding the values involved, here 1/2) the floored target
strictly increases from model length 1 to model length 2, so
default_target_relent is not non increasing in M for every fixed
offset. -/
theorem claim_C5_counterexample :
    default_target_relent 4 (1/2) 1 < default_target_relent 4 (1/2) 2 := by
  rw [default_target_relent_eq, default_target_relent_eq]
  have L2pos : (0 : ℝ) < Real.log 2 := Real.log_pos (by norm_num)
  have hlog32 : (4 : ℝ) / 3 < Real.log 3 / Real.log 2 := by
    rw [lt_div_iff L2pos]
    have h := Real.log_lt_log (show (0 : ℝ) < 16 by norm_num)
      (show (16 : ℝ) < 27 by norm_num)
    rw [show (16 : ℝ) = 2 ^ 4 by norm_num,
      show (27 : ℝ) = 3 ^ 3 by norm_num, Real.log_pow, Real.log_pow] at h
    push_cast at h
    linarith
  push_cast
  norm_num [Real.log_one]
  linarith

/-- Witness for C5 at concrete inputs: with the default offset eX = 6
and floor 1/2 the target at M = 5 is at least the floor, and the
target decreases from M = 1 to M = 2 since 6 is at least 3 log2 3. -/
theorem claim_C5_default_relent_witness :
    (1/2 : ℝ) ≤ default_target_relent 6 (1/2) 5 ∧
    default_target_relent 6 (1/2) 2 ≤ default_target_relent 6 (1/2) 1 := by
  constructor
  · exact (claim_C5_default_relent 6 (1/2) 5 (by norm_num)).2.1
  · refine (claim_C5_default_relent 6 (1/2) 1 (by norm_num)).2.2 ?_
    have L2pos : (0 : ℝ) < Real.log 2 := Real.log_pos (by norm_num)
    rw [div_le_iff L2pos]
    have h := Real.log_le_log (show (0 : ℝ) < 27 by norm_num)
      (show (27 : ℝ) ≤ 64 by norm_num)
    rw [show (27 : ℝ) = 3 ^ 3 by norm_num,
      show (64 : ℝ) = 2 ^ 6 by norm_num, Real.log_pow, Real.log_pow] at h
    push_cast at h
    linarith
